import Mathlib

set_option maxRecDepth 8000

/-!
Verification of the OpenGL-rust repository (src/main.rs, src/wrapper.rs).

The program's numeric state is IEEE binary32 (`f32`). Every finite `f32`
value is an integer multiple of `2 ^ (-149)`, so we embed `f32` values as
integers scaled by `2 ^ 149`, with round-to-nearest, ties-to-even at 24
significant bits and the subnormal grain clamped at `2 ^ (-149)`. Overflow
to infinity and NaN are not modelled: no value in this program leaves the
finite range (magnitudes stay below 2, and the model is exact there).
-/

/-- Floor of the base-2 logarithm, by a fixed 10-level binary search over
exponents (correct for every input below `2 ^ 1024`, far above any value
reachable in this development; returns 0 for inputs 0 and 1). The fixed
structure keeps the definition kernel-evaluable. -/
def flog2 (n : Nat) : Nat :=
  let f : Nat → Nat → Nat := fun acc w => if 2 ^ (acc + w) ≤ n then acc + w else acc
  f (f (f (f (f (f (f (f (f (f 0 512) 256) 128) 64) 32) 16) 8) 4) 2) 1

/-- Round a natural number to the nearest multiple of `2 ^ u`, ties to even. -/
def roundMagAt (u : Nat) (m : Nat) : Nat :=
  let p := 2 ^ u
  let q := m / p
  let r := m % p
  (if 2 * r < p then q
   else if 2 * r > p then q + 1
   else if q % 2 = 0 then q else q + 1) * p

/-- Round an exact value scaled by `2 ^ 149` to the nearest binary32 value
(same scale): 24 significant bits, ties to even, subnormal grain `2 ^ 0`
in scaled units. Rounding the magnitude and reapplying the sign agrees
with IEEE round-to-nearest-even, which is symmetric. -/
def f32round (v : Int) : Int :=
  let m := v.natAbs
  let u := flog2 m - 23
  let r : Int := (roundMagAt u m : Nat)
  if v < 0 then -r else r

/-- `f32` addition on scaled values: the exact sum at scale `2 ^ 149`,
correctly rounded. -/
def f32add (a b : Int) : Int := f32round (a + b)

/-- `f32` subtraction on scaled values. -/
def f32sub (a b : Int) : Int := f32round (a - b)

/-- `f32` multiplication on scaled values: the exact product lives at scale
`2 ^ 298`; round it to 24 significant bits at a grain of at least `2 ^ 149`
of those units (the subnormal clamp), then rescale exactly. -/
def f32mul (a b : Int) : Int :=
  let p := a * b
  let m := p.natAbs
  let u := max (flog2 m - 23) 149
  let r : Int := (roundMagAt u m / 2 ^ 149 : Nat)
  if p < 0 then -r else r

/-- The binary32 value nearest to the rational `n / d` (`d > 0`), scaled by
`2 ^ 149`: the translation of the Rust `f32` literals, which Rust rounds to
nearest. The magnitude is widened to scale `2 ^ 200`; the division
remainder `ra` acts as a sticky bit so ties are detected exactly. -/
def f32lit (n : Int) (d : Nat) : Int :=
  if n = 0 then 0 else
  let mag := n.natAbs * 2 ^ 200
  let qa := mag / d
  let ra := mag % d
  let u := max (flog2 qa - 23) 51
  let pw := 2 ^ u
  let qq := qa / pw
  let rm := qa % pw
  let rounded := (if 2 * rm < pw then qq
    else if 2 * rm > pw then qq + 1
    else if ra ≠ 0 then qq + 1
    else if qq % 2 = 0 then qq else qq + 1) * pw
  let r : Int := (rounded / 2 ^ 51 : Nat)
  if n < 0 then -r else r

/-- The Rust cast `as i32` on an `f32` value (scaled by `2 ^ 149`):
truncation toward zero, saturating at the `i32` bounds. -/
def f32toI32 (v : Int) : Int :=
  let t : Int := (v.natAbs / 2 ^ 149 : Nat)
  let t := if v < 0 then -t else t
  max (-(2 ^ 31)) (min t (2 ^ 31 - 1))

/-- The movement keys from src/main.rs and src/wrapper.rs; `other` stands
for every remaining key of the window library's key type, reaching the
wildcard arms of the Rust `match`es. -/
inductive Key where
  | W
  | S
  | A
  | D
  | other
deriving DecidableEq, Fintype

/-- `Settings` from src/wrapper.rs lines 313-318. `landslide` is the
`[f32; 2]` translation, embedded as a pair (`.1` is index 0, the x
component; `.2` is index 1, the y component); `delta` and `iteration` are
its `f32` fields, all scaled by `2 ^ 149`. -/
structure Settings where
  landslide : Int × Int
  delta : Int
  iteration : Int
deriving DecidableEq

/-- `Settings::new` (src/wrapper.rs lines 321-325): translation `[0.0, 0.0]`,
`delta = 0.01`, `iteration = 0.0`. -/
def Settings.new : Settings :=
  { landslide := (0, 0), delta := f32lit 1 100, iteration := 0 }

/-- `Settings::move_horiz` (src/wrapper.rs lines 342-351): `iteration += 1.0`;
if `iteration as i32 % 10 == 0` then `delta *= 2.0`; then `A` subtracts and
`D` adds `delta` to `landslide[0]`; other keys reach the wildcard arm. -/
def Settings.move_horiz (s : Settings) (key : Key) : Settings :=
  let iteration := f32add s.iteration (f32lit 1 1)
  let delta :=
    if Int.tmod (f32toI32 iteration) 10 = 0 then f32mul s.delta (f32lit 2 1) else s.delta
  let landslide :=
    match key with
    | Key.A => (f32sub s.landslide.1 delta, s.landslide.2)
    | Key.D => (f32add s.landslide.1 delta, s.landslide.2)
    | _ => s.landslide
  { landslide := landslide, delta := delta, iteration := iteration }

/-- `Settings::move_vert` (src/wrapper.rs lines 353-362): same counter and
delta update as `move_horiz`; `W` adds and `S` subtracts `delta` on
`landslide[1]`. -/
def Settings.move_vert (s : Settings) (key : Key) : Settings :=
  let iteration := f32add s.iteration (f32lit 1 1)
  let delta :=
    if Int.tmod (f32toI32 iteration) 10 = 0 then f32mul s.delta (f32lit 2 1) else s.delta
  let landslide :=
    match key with
    | Key.W => (s.landslide.1, f32add s.landslide.2 delta)
    | Key.S => (s.landslide.1, f32sub s.landslide.2 delta)
    | _ => s.landslide
  { landslide := landslide, delta := delta, iteration := iteration }

/-- `Settings::reset_params` (src/wrapper.rs lines 364-367): `delta = 0.01`,
`iteration = 0.0`; the translation is untouched. -/
def Settings.reset_params (s : Settings) : Settings :=
  { s with delta := f32lit 1 100, iteration := 0 }

/-- Apply one movement function with one held key `n` times in a row
(the per-frame updates performed while a key stays pressed). -/
def repeatMove (f : Settings → Key → Settings) (key : Key) : Nat → Settings → Settings
  | 0, s => s
  | n + 1, s => repeatMove f key n (f s key)

/-- `Vertex = [f32; 3]` (src/wrapper.rs line 6): `x` is index 0, `y` index 1,
`z` index 2, scaled by `2 ^ 149`. -/
structure Vertex where
  x : Int
  y : Int
  z : Int
deriving DecidableEq

/-- The base vertex array of `get_vertices` (src/main.rs lines 17-35),
before the translation loop mutates it. -/
def base_vertices : List Vertex :=
  [ { x := f32lit (-81) 100, y := f32lit 12 100, z := 0 },
    { x := f32lit (-81) 100, y := f32lit 468 1000, z := 0 },
    { x := f32lit (-632) 1000, y := f32lit 291 1000, z := 0 },
    { x := f32lit (-557) 1000, y := f32lit 364 1000, z := 0 },
    { x := f32lit (-557) 1000, y := f32lit 12 100, z := 0 },
    { x := f32lit (-557) 1000, y := f32lit (-141) 1000, z := 0 },
    { x := f32lit (-81) 100, y := f32lit (-141) 1000, z := 0 },
    { x := f32lit (-557) 1000, y := f32lit (-11) 1000, z := 0 },
    { x := f32lit (-4) 100, y := f32lit (-11) 1000, z := 0 },
    { x := f32lit 477 1000, y := f32lit (-11) 1000, z := 0 },
    { x := f32lit (-3) 10, y := f32lit (-27) 100, z := 0 },
    { x := f32lit 22 100, y := f32lit (-27) 100, z := 0 },
    { x := f32lit (-557) 1000, y := f32lit (-526) 1000, z := 0 },
    { x := f32lit 477 1000, y := f32lit (-526) 1000, z := 0 },
    { x := f32lit 544 1000, y := f32lit 236 1000, z := 0 },
    { x := f32lit 85 100, y := f32lit 408 1000, z := 0 },
    { x := f32lit 792 1000, y := f32lit 168 1000, z := 0 } ]

/-- The body of the mutation loop of `get_vertices` (src/main.rs lines
37-40): `vertex[0] += landslide[0]; vertex[1] += landslide[1]`. -/
def translate_vertex (landslide : Int × Int) (v : Vertex) : Vertex :=
  { x := f32add v.x landslide.1, y := f32add v.y landslide.2, z := v.z }

/-- `get_vertices` (src/main.rs lines 16-43): the base array with every
vertex shifted by the `landslide` translation. -/
def get_vertices (landslide : Int × Int) : List Vertex :=
  base_vertices.map (translate_vertex landslide)

/-- `get_triangles_indices` (src/main.rs lines 45-57): the constant
`[TriIndices; 9]` table (`TriIndices = [u32; 3]`). -/
def get_triangles_indices : List (Nat × Nat × Nat) :=
  [ (0, 1, 2), (0, 3, 4), (0, 4, 6), (4, 5, 6), (7, 8, 12),
    (8, 10, 11), (8, 9, 13), (9, 14, 16), (14, 15, 16) ]

/-- `get_lines_indices` (src/main.rs lines 59-81): the constant
`[BiIndices; 19]` table (`BiIndices = [u32; 2]`). -/
def get_lines_indices : List (Nat × Nat) :=
  [ (0, 1), (1, 2), (0, 3), (3, 4), (0, 4), (0, 6), (4, 7), (5, 6),
    (7, 12), (7, 8), (8, 9), (8, 12), (8, 13), (10, 11), (9, 13),
    (9, 14), (9, 16), (14, 15), (15, 16) ]

/-- The GL objects created inside `ShaderProgram::from_vertex_fragment`
(src/wrapper.rs lines 208-227): the program object and the two shader
objects. -/
inductive GRes where
  | program
  | vertexShader
  | fragmentShader
deriving DecidableEq, Fintype

/-- The driver-dependent outcomes of the GL calls made while building one
shader program: whether each allocation, compile and link succeeds, and the
info-log texts the driver reports. These are the only inputs of
`from_vertex_fragment` beyond the source strings. -/
structure GLDriver where
  program_alloc_ok : Bool
  vertex_alloc_ok : Bool
  fragment_alloc_ok : Bool
  vertex_compile_ok : Bool
  fragment_compile_ok : Bool
  link_ok : Bool
  vertex_log : String
  fragment_log : String
  program_log : String
deriving DecidableEq

instance : DecidableEq (Except String Unit) := fun a b =>
  match a, b with
  | Except.ok (), Except.ok () => isTrue rfl
  | Except.error x, Except.error y =>
    match decEq x y with
    | isTrue h => isTrue (congrArg Except.error h)
    | isFalse h => isFalse fun hh => h (Except.error.inj hh)
  | Except.ok _, Except.error _ => isFalse fun hh => Except.noConfusion hh
  | Except.error _, Except.ok _ => isFalse fun hh => Except.noConfusion hh

/-- Result and resource trace of one call: the `Result<_, String>` value,
the list of GL objects created during the call, and the list of GL objects
explicitly deleted during the call. -/
structure BuildTrace where
  result : Except String Unit
  created : List GRes
  deleted : List GRes
deriving DecidableEq

/-- `Shader::from_source` (src/wrapper.rs lines 137-149) for one stage:
on allocation failure the error is `Could not allocate shader` and nothing
was created; on compile failure the info log is the error and the shader
object is deleted; on success the shader object stays live. -/
def from_source (alloc_ok compile_ok : Bool) (log : String) (r : GRes) : BuildTrace :=
  if alloc_ok = false then
    { result := Except.error "Could not allocate shader", created := [], deleted := [] }
  else if compile_ok then
    { result := Except.ok (), created := [r], deleted := [] }
  else
    { result := Except.error log, created := [r], deleted := [r] }

/-- `ShaderProgram::from_vertex_fragment` (src/wrapper.rs lines 208-227):
allocate the program, build both shaders (the `?` operator propagates their
errors after prefixing the stage name), attach, link; on link failure the
program's info log is reported and the program object is deleted. -/
def from_vertex_fragment (d : GLDriver) : BuildTrace :=
  if d.program_alloc_ok = false then
    { result := Except.error "Could not allocate a program", created := [], deleted := [] }
  else
    match from_source d.vertex_alloc_ok d.vertex_compile_ok d.vertex_log GRes.vertexShader with
    | { result := Except.error e, created := c, deleted := del } =>
      { result := Except.error ("Vertex Compile Error: " ++ e),
        created := GRes.program :: c, deleted := del }
    | { result := Except.ok _, created := cv, deleted := dv } =>
      match from_source d.fragment_alloc_ok d.fragment_compile_ok d.fragment_log
          GRes.fragmentShader with
      | { result := Except.error e, created := c, deleted := del } =>
        { result := Except.error ("Fragment Compile Error: " ++ e),
          created := GRes.program :: cv ++ c, deleted := dv ++ del }
      | { result := Except.ok _, created := cf, deleted := df } =>
        if d.link_ok then
          { result := Except.ok (), created := GRes.program :: cv ++ cf, deleted := dv ++ df }
        else
          { result := Except.error ("Program Link Error: " ++ d.program_log),
            created := GRes.program :: cv ++ cf, deleted := dv ++ df ++ [GRes.program] }

/-- The GL handles `main` (src/main.rs lines 105-251) creates during setup:
the vertex buffer, the two vertex arrays, the two element buffers, and for
each of the two `from_vertex_fragment` calls a program object plus its
vertex and fragment shader objects (all six created on the successful build
path the program requires to reach the render loop). -/
inductive MRes where
  | vbo
  | vao1
  | ebo1
  | vao2
  | ebo2
  | triangle_program
  | triangle_vshader
  | triangle_fshader
  | line_program
  | line_vshader
  | line_fshader
deriving DecidableEq, Fintype

/-- The handles created during `main`'s setup, in source order
(src/main.rs lines 114, 122, 125, 145, 148, 197, 202). -/
def main_created : List MRes :=
  [ MRes.vbo, MRes.vao1, MRes.ebo1, MRes.vao2, MRes.ebo2,
    MRes.triangle_program, MRes.triangle_vshader, MRes.triangle_fshader,
    MRes.line_program, MRes.line_vshader, MRes.line_fshader ]

/-- The handles with an explicit delete call on the normal window-close
exit path (src/main.rs lines 246-250), in source order. -/
def main_deleted : List MRes :=
  [ MRes.vbo, MRes.ebo1, MRes.ebo2, MRes.vao1, MRes.vao2 ]

/-- The buffer and vertex-array handles among `main`'s resources. -/
def isBufferOrArray : MRes → Bool
  | MRes.vbo => true
  | MRes.vao1 => true
  | MRes.ebo1 => true
  | MRes.vao2 => true
  | MRes.ebo2 => true
  | _ => false

/-- The shader-program and shader-object handles among `main`'s resources. -/
def isShaderRes : MRes → Bool
  | MRes.triangle_program => true
  | MRes.triangle_vshader => true
  | MRes.triangle_fshader => true
  | MRes.line_program => true
  | MRes.line_vshader => true
  | MRes.line_fshader => true
  | _ => false

/-- The shared counter after one held-key update (`iteration += 1.0`), as
computed identically by `move_horiz` and `move_vert`. -/
def stepIter (s : Settings) : Int := f32add s.iteration (f32lit 1 1)

/-- The shared step size after one held-key update: doubled when the
incremented counter, cast to `i32`, is divisible by 10, as computed
identically by `move_horiz` and `move_vert`. -/
def stepDelta (s : Settings) : Int :=
  if Int.tmod (f32toI32 (stepIter s)) 10 = 0 then f32mul s.delta (f32lit 2 1) else s.delta

/-- Claim C1 (counterexample): the axes are not independent. Starting from
`delta = 0.01, iteration = 0`, ten horizontal D-held updates change the
`delta` a subsequent vertical update uses: the first W update afterwards
moves the y component by the f32 value 0.02 instead of 0.01. -/
theorem axis_independence_cex :
    (repeatMove Settings.move_horiz Key.D 10 Settings.new).delta ≠ Settings.new.delta ∧
    ((repeatMove Settings.move_horiz Key.D 10 Settings.new).move_vert Key.W).landslide.2
      = f32lit 2 100 ∧
    (Settings.new.move_vert Key.W).landslide.2 = f32lit 1 100 := by decide

/-- Claim C1 (amended): the horizontal and vertical axes share one counter
and one step size: for every state, a horizontal and a vertical update
produce the same `delta` and `iteration`; driving the horizontal axis's
counter to 10 doubles the shared delta to the f32 value 0.02, and that
doubled delta is what the next vertical W update adds to y. -/
theorem axes_share_delta_and_iteration :
    (∀ (s : Settings) (k1 k2 : Key),
      (s.move_horiz k1).delta = (s.move_vert k2).delta ∧
      (s.move_horiz k1).iteration = (s.move_vert k2).iteration) ∧
    (repeatMove Settings.move_horiz Key.D 10 Settings.new).delta = f32lit 2 100 ∧
    ((repeatMove Settings.move_horiz Key.D 10 Settings.new).move_vert Key.W).landslide.2
      = f32lit 2 100 :=
  ⟨fun _ _ _ => ⟨rfl, rfl⟩, by decide, by decide⟩

/-- Claim C2 (counterexample): when the fragment and link stages would
succeed but the vertex shader fails to compile, `from_vertex_fragment`
returns the stage-labelled error, yet the program object it created first
is never deleted: the cleanup part of the claim fails. -/
theorem build_failure_cleanup_cex :
    (from_vertex_fragment
        ⟨true, true, true, false, true, true, "vlog", "flog", "plog"⟩).result
      = Except.error ("Vertex Compile Error: " ++ "vlog") ∧
    GRes.program ∈ (from_vertex_fragment
        ⟨true, true, true, false, true, true, "vlog", "flog", "plog"⟩).created ∧
    GRes.program ∉ (from_vertex_fragment
        ⟨true, true, true, false, true, true, "vlog", "flog", "plog"⟩).deleted :=
  ⟨rfl, by decide, by decide⟩

/-- Claim C2 (amended): every failure path returns an error string naming
the failing stage and carrying the driver log, and no program handle; but
cleanup is partial: on a shader compile failure the failing shader object
is deleted while the already-created program object is not, and on a link
failure the program object is deleted while the two shader objects are
not. -/
theorem build_failure_characterization (d : GLDriver) :
    (d.program_alloc_ok = false →
      from_vertex_fragment d =
        { result := Except.error "Could not allocate a program",
          created := [], deleted := [] }) ∧
    (d.program_alloc_ok = true → d.vertex_alloc_ok = false →
      from_vertex_fragment d =
        { result := Except.error ("Vertex Compile Error: " ++ "Could not allocate shader"),
          created := [GRes.program], deleted := [] }) ∧
    (d.program_alloc_ok = true → d.vertex_alloc_ok = true → d.vertex_compile_ok = false →
      from_vertex_fragment d =
        { result := Except.error ("Vertex Compile Error: " ++ d.vertex_log),
          created := [GRes.program, GRes.vertexShader],
          deleted := [GRes.vertexShader] }) ∧
    (d.program_alloc_ok = true → d.vertex_alloc_ok = true → d.vertex_compile_ok = true →
     d.fragment_alloc_ok = false →
      from_vertex_fragment d =
        { result := Except.error ("Fragment Compile Error: " ++ "Could not allocate shader"),
          created := [GRes.program, GRes.vertexShader], deleted := [] }) ∧
    (d.program_alloc_ok = true → d.vertex_alloc_ok = true → d.vertex_compile_ok = true →
     d.fragment_alloc_ok = true → d.fragment_compile_ok = false →
      from_vertex_fragment d =
        { result := Except.error ("Fragment Compile Error: " ++ d.fragment_log),
          created := [GRes.program, GRes.vertexShader, GRes.fragmentShader],
          deleted := [GRes.fragmentShader] }) ∧
    (d.program_alloc_ok = true → d.vertex_alloc_ok = true → d.vertex_compile_ok = true →
     d.fragment_alloc_ok = true → d.fragment_compile_ok = true → d.link_ok = false →
      from_vertex_fragment d =
        { result := Except.error ("Program Link Error: " ++ d.program_log),
          created := [GRes.program, GRes.vertexShader, GRes.fragmentShader],
          deleted := [GRes.program] }) := by
  obtain ⟨pa, va, fa, vc, fc, lk, vl, fl, pl⟩ := d
  refine ⟨?_, ?_, ?_, ?_, ?_, ?_⟩ <;> intros <;> subst_vars <;> rfl

/-- Witness for the amended claim C2 at a concrete driver: a link failure
with every earlier stage succeeding. -/
theorem build_failure_characterization_witness :
    from_vertex_fragment ⟨true, true, true, true, true, false, "v", "f", "p"⟩ =
      { result := Except.error ("Program Link Error: " ++ "p"),
        created := [GRes.program, GRes.vertexShader, GRes.fragmentShader],
        deleted := [GRes.program] } :=
  (build_failure_characterization
      ⟨true, true, true, true, true, false, "v", "f", "p"⟩).2.2.2.2.2
    rfl rfl rfl rfl rfl rfl

/-- Claim C3: from the initial state (`delta = 0.01`, `iteration = 0`), ten
consecutive held-key updates on one axis (either function, any key) leave
`delta` equal to the f32 value nearest 0.02 exactly, and twenty such
updates leave it equal to the f32 value nearest 0.04 exactly. -/
theorem delta_after_10_and_20_updates :
    ∀ key : Key,
      (repeatMove Settings.move_horiz key 10 Settings.new).delta = f32lit 2 100 ∧
      (repeatMove Settings.move_vert key 10 Settings.new).delta = f32lit 2 100 ∧
      (repeatMove Settings.move_horiz key 20 Settings.new).delta = f32lit 4 100 ∧
      (repeatMove Settings.move_vert key 20 Settings.new).delta = f32lit 4 100 := by
  decide

/-- Claim C4: from every state whatsoever (so in particular every state
reachable by held-key updates), `reset_params` restores `delta` to the f32
value 0.01 and `iteration` to 0 exactly. -/
theorem reset_restores_delta_and_iteration (s : Settings) :
    (s.reset_params).delta = f32lit 1 100 ∧ (s.reset_params).iteration = 0 :=
  ⟨rfl, rfl⟩

/-- Claim C5: `get_vertices` is a pure per-vertex translation: for every
offset and every index, the produced vertex is the base vertex with the
offset's components f32-added to x and y and z untouched. -/
theorem get_vertices_translates (dx dy : Int) (i : Nat)
    (h1 : i < (get_vertices (dx, dy)).length) (h2 : i < base_vertices.length) :
    (get_vertices (dx, dy)).get ⟨i, h1⟩ =
      { x := f32add (base_vertices.get ⟨i, h2⟩).x dx,
        y := f32add (base_vertices.get ⟨i, h2⟩).y dy,
        z := (base_vertices.get ⟨i, h2⟩).z } := by
  simp [get_vertices, translate_vertex]

/-- Witness for claim C5 at offset `(0.1, 0)` and index 0. -/
theorem get_vertices_translates_witness :
    (get_vertices (f32lit 1 10, 0)).get ⟨0, by decide⟩ =
      { x := f32add (f32lit (-81) 100) (f32lit 1 10),
        y := f32add (f32lit 12 100) 0, z := 0 } :=
  (get_vertices_translates (f32lit 1 10) 0 0 (by decide) (by decide)).trans (by decide)

/-- Claim C6: with the initial translation `(0, 0)` vertex 0 is the f32
triple `(-0.81, 0.12, 0.0)`, and after one vertical W update from the
initial settings (one addition of `delta = 0.01`) vertex 0 is exactly the
f32 triple `(-0.81, 0.13, 0.0)`. -/
theorem vertex0_values :
    (get_vertices Settings.new.landslide).take 1 =
      [{ x := f32lit (-81) 100, y := f32lit 12 100, z := 0 }] ∧
    (get_vertices (Settings.new.move_vert Key.W).landslide).take 1 =
      [{ x := f32lit (-81) 100, y := f32lit 13 100, z := 0 }] := by
  decide

/-- Claim C7: one held-key update increments the counter first, then doubles
the step if the new counter (as `i32`) is divisible by 10, then adds the
resulting step for W (y) and D (x) or subtracts it for S (y) and A (x),
and changes nothing else: the whole result state is determined this way. -/
theorem held_key_transition (s : Settings) :
    s.move_vert Key.W =
      { landslide := (s.landslide.1, f32add s.landslide.2 (stepDelta s)),
        delta := stepDelta s, iteration := stepIter s } ∧
    s.move_vert Key.S =
      { landslide := (s.landslide.1, f32sub s.landslide.2 (stepDelta s)),
        delta := stepDelta s, iteration := stepIter s } ∧
    s.move_horiz Key.D =
      { landslide := (f32add s.landslide.1 (stepDelta s), s.landslide.2),
        delta := stepDelta s, iteration := stepIter s } ∧
    s.move_horiz Key.A =
      { landslide := (f32sub s.landslide.1 (stepDelta s), s.landslide.2),
        delta := stepDelta s, iteration := stepIter s } :=
  ⟨rfl, rfl, rfl, rfl⟩

/-- Claim C8 (counterexample): the triangle shader program handle is created
during setup but has no delete call on the window-close exit path. -/
theorem exit_release_cex :
    MRes.triangle_program ∈ main_created ∧ MRes.triangle_program ∉ main_deleted := by
  decide

/-- Claim C8 (amended): on the normal exit path every buffer and
vertex-array handle created during setup is explicitly deleted and only
created handles are deleted, but every one of the six shader resources —
the two program handles and the four shader-object handles — is created
during setup and never released. -/
theorem exit_release_characterization :
    (∀ r : MRes, r ∈ main_deleted → r ∈ main_created) ∧
    (∀ r : MRes, isBufferOrArray r = true → r ∈ main_deleted) ∧
    (∀ r : MRes, isShaderRes r = true → r ∈ main_created ∧ r ∉ main_deleted) := by
  decide

/-- Witness for the amended claim C8: the line shader program is a shader
resource, and it is created during setup and never released. -/
theorem exit_release_characterization_witness :
    MRes.line_program ∈ main_created ∧ MRes.line_program ∉ main_deleted :=
  exit_release_characterization.2.2 MRes.line_program (by decide)

/-- Claim C9: every entry of the 9-triple triangle table and the 19-pair
line table is strictly below 17, and `get_vertices` always yields exactly
17 vertices, so indexed lookups are in bounds. -/
theorem indices_in_bounds :
    (∀ t ∈ get_triangles_indices, t.1 < 17 ∧ t.2.1 < 17 ∧ t.2.2 < 17) ∧
    (∀ p ∈ get_lines_indices, p.1 < 17 ∧ p.2 < 17) ∧
    (∀ l : Int × Int, (get_vertices l).length = 17) := by
  refine ⟨by decide, by decide, fun l => rfl⟩

/-- Witness for claim C9 at the first triangle of the table. -/
theorem indices_in_bounds_witness : (0 : Nat) < 17 ∧ (1 : Nat) < 17 ∧ (2 : Nat) < 17 :=
  indices_in_bounds.1 (0, 1, 2) (by decide)

/-- Claim C10: releasing a movement key resets only the acceleration state:
`reset_params` leaves both translation components untouched for every
state. -/
theorem reset_preserves_landslide (s : Settings) :
    (s.reset_params).landslide = s.landslide :=
  rfl
